import Mathlib

/-!
Verification of the `dexhand_manager` device-control runtime.

This file shallowly embeds the parts of the repository that the verified
properties are about, and proves the properties over that embedding:

* `models/lerp_model.py` — the barycentric tetrahedral workspace mapper
  (`to_barycentric`, `hit_test`, module-level `interpolate`,
  `LinearInterpModel` with `set_target` / `set_targets` /
  `LinearInterpModel.interpolate`);
* `models/arm_control.py` — the `PiperArm` bounded-retry enable/disable
  handshake and `move_j`;
* `models/dexhand_controller.py` — `DexHandController.setup_model`,
  `move_p`, `move_p_ik`, `_move_p_lerp`;
* `services/dexhand_service.py` — the `SendJoint`/`SendPose` command-stream
  session loop and the `ReceiveStatus` status-push loop.

Conventions of the embedding:

* Python floats are modelled as exact rationals (`ℚ`).  All arithmetic in
  the mapped code paths consists of additions, multiplications and one
  4×4 dense linear solve, which are exact computations here.
* `np.linalg.solve` on a 4×4 system is modelled by Cramer's rule: it
  returns the unique solution of a nonsingular system and fails
  (`numpy.linalg.LinAlgError`) exactly when the determinant is zero.
  The lemma `toBarycentric_solves` checks that the returned weights
  really do solve the system the Python code builds.
* Python exceptions are modelled with `Except`: each `raise` site is
  mapped to a constructor of `PyErr` (the doc comment at `PyErr` lists
  the correspondence).
* Stateful methods become functions from the state record to
  `Except PyErr` of the updated state/result.
-/

/-- Error values corresponding to the `raise` sites of the embedded code.

* `notConfigured` — `ValueError("Targets must be set before interpolation.")`
  (and, at the controller level, `ValueError("Lerp model is not configured.")`);
* `outOfRange`  — `ValueError("Point is not within the convex hull of the vertices.")`;
* `numerical`   — `numpy.linalg.LinAlgError` from a singular solve;
* `shapeError`  — the `ValueError`s raised on array-shape checks
  (`"Vertices must be a 4x3 array."`, `"Point must be a 3D point."`,
  `"Targets must be a 8xN array."`, `"Targets must be a 1xN array."`);
* `indexError`  — Python `IndexError` on list indexing;
* `attributeError` — Python `AttributeError` (attribute accessed before
  first assignment);
* `notReady`    — `ValueError("Arm is not enabled or connected.")`;
* `invalidArgument` — `ValueError("Invalid joint values.")`;
* `notImplemented`/`invalidValue` — `NotImplementedError` / other `ValueError`s;
* `wrapped e`   — `Exception(f"Failed to ...: {e}")` re-raise wrappers in
  `DexHandController`. -/
inductive PyErr where
  | notConfigured
  | outOfRange
  | numerical
  | shapeError
  | indexError
  | attributeError
  | notReady
  | invalidArgument
  | notImplemented
  | invalidValue
  | wrapped (e : PyErr)
  deriving Repr, DecidableEq

/-- A 3-D point (one row of a `(·,3)` numpy array). -/
structure Vec3 where
  x : ℚ
  y : ℚ
  z : ℚ
  deriving Repr, DecidableEq

/-- Barycentric weights `λ₀..λ₃` — the solution vector of the 4×4 system. -/
structure Bary where
  l0 : ℚ
  l1 : ℚ
  l2 : ℚ
  l3 : ℚ
  deriving Repr, DecidableEq

/-- Determinant of a 3×3 matrix given row-major. -/
def det3 (a b c d e f g h i : ℚ) : ℚ :=
  a * (e * i - f * h) - b * (d * i - f * g) + c * (d * h - e * g)

/-- Determinant of a 4×4 matrix given row-major (cofactor expansion along
the first row). -/
def det4 (m00 m01 m02 m03 m10 m11 m12 m13 m20 m21 m22 m23 m30 m31 m32 m33 : ℚ) : ℚ :=
  m00 * det3 m11 m12 m13 m21 m22 m23 m31 m32 m33
  - m01 * det3 m10 m12 m13 m20 m22 m23 m30 m32 m33
  + m02 * det3 m10 m11 m13 m20 m21 m23 m30 m31 m33
  - m03 * det3 m10 m11 m12 m20 m21 m22 m30 m31 m32

/-- `to_barycentric(vertices, point)` of `models/lerp_model.py` for an
already-shape-checked `4×3` vertex array `a,b,c,d` and 3-D `point p`:
builds the matrix `A` whose columns are the vertices with a final row of
ones, and solves `A·λ = (p.x, p.y, p.z, 1)` with `np.linalg.solve`.
The solve is modelled by Cramer's rule; a singular `A` yields `none`
(`LinAlgError`). -/
def toBarycentric (a b c d p : Vec3) : Option Bary :=
  let dA := det4 a.x b.x c.x d.x a.y b.y c.y d.y a.z b.z c.z d.z 1 1 1 1
  if dA = 0 then none
  else some
    { l0 := det4 p.x b.x c.x d.x p.y b.y c.y d.y p.z b.z c.z d.z 1 1 1 1 / dA
      l1 := det4 a.x p.x c.x d.x a.y p.y c.y d.y a.z p.z c.z d.z 1 1 1 1 / dA
      l2 := det4 a.x b.x p.x d.x a.y b.y p.y d.y a.z b.z p.z d.z 1 1 1 1 / dA
      l3 := det4 a.x b.x c.x p.x a.y b.y c.y p.y a.z b.z c.z p.z 1 1 1 1 / dA }

/-- `hit_test(vertices, point)`: the point is inside the simplex iff every
barycentric weight lies in `[0,1]` (`all([0 <= l[i] <= 1 for i in range(4)])`).
A solver failure propagates (hence `Option`). -/
def hitTest (a b c d p : Vec3) : Option Bool :=
  (toBarycentric a b c d p).map fun l =>
    decide (0 ≤ l.l0 ∧ l.l0 ≤ 1 ∧ 0 ≤ l.l1 ∧ l.l1 ≤ 1 ∧
            0 ≤ l.l2 ∧ l.l2 ≤ 1 ∧ 0 ≤ l.l3 ∧ l.l3 ≤ 1)

/-- Elementwise scaling `c * v` of a 1-D numpy array. -/
def scaleV (c : ℚ) (v : List ℚ) : List ℚ := v.map (fun t => c * t)

/-- Elementwise sum of two 1-D numpy arrays.  The embedded code only adds
arrays of equal length (all calibration targets share the model's output
dimension); numpy would raise on a genuine length mismatch. -/
def addV (v w : List ℚ) : List ℚ := List.zipWith (· + ·) v w

/-- The weighted combination
`l[0]*targets[0] + l[1]*targets[1] + l[2]*targets[2] + l[3]*targets[3]`
computed by the module-level `interpolate` of `models/lerp_model.py`. -/
def wsum (l : Bary) (t0 t1 t2 t3 : List ℚ) : List ℚ :=
  addV (addV (addV (scaleV l.l0 t0) (scaleV l.l1 t1)) (scaleV l.l2 t2)) (scaleV l.l3 t3)

/-- Module-level `interpolate(vertices, targets, point)`: recomputes the
barycentric weights and returns the weighted combination of the four
target rows.  A singular solve propagates as `none`. -/
def interpValues (a b c d : Vec3) (t0 t1 t2 t3 : List ℚ) (p : Vec3) : Option (List ℚ) :=
  (toBarycentric a b c d p).map fun l => wsum l t0 t1 t2 t3

namespace LinearInterpModel

/-- The 8 fixed cube-corner vertices constructed in
`LinearInterpModel.__init__` (each `Vertex(x, y, z).values`), in
construction order. -/
def cubeVertices : List Vec3 :=
  [ ⟨-1,  1,  1⟩, ⟨ 1,  1,  1⟩, ⟨ 1,  1, -1⟩, ⟨-1,  1, -1⟩,
    ⟨-1, -1,  1⟩, ⟨ 1, -1,  1⟩, ⟨ 1, -1, -1⟩, ⟨-1, -1, -1⟩ ]

/-- The 5 fixed simplices (`simplex_vertex_idxs` and the `vertex_indices`
of the `Simplex` objects), in construction order. -/
def simplexIdxs : List (List ℕ) :=
  [[0, 1, 2, 5], [0, 2, 5, 7], [0, 4, 5, 7], [0, 2, 3, 7], [2, 5, 6, 7]]

end LinearInterpModel

/-- The mutable state of a `LinearInterpModel`.

The vertex positions and the simplex index lists are structural geometry,
fixed by `__init__` and never mutated (they live in the constants
`LinearInterpModel.cubeVertices` / `LinearInterpModel.simplexIdxs`); the
state holds the mutable fields:

* `targetGroups` — `vertices[i].target_group` for each of the 8 vertices,
  flattened to a row (the code stores a `(1,N)` array and flattens it on
  use; `size > 0` of the array is `length > 0` of the row);
* `canInterpolate` — `can_interpolate`;
* `targets`/`targetDim` — the fields written by `set_targets`
  (`self.targets` is a class-level *annotation only* until `set_targets`
  first assigns it, hence `Option`). -/
structure LinearInterpModel where
  targetGroups : List (List ℚ)
  canInterpolate : Bool
  targets : Option (List (List ℚ))
  targetDim : ℕ
  deriving Repr, DecidableEq

namespace LinearInterpModel

/-- The state right after `LinearInterpModel.__init__`: every vertex's
`target_group` is `np.zeros((1,))` — a *length-1* zero row — and
`can_interpolate` is `False`. -/
def init : LinearInterpModel :=
  { targetGroups := [[0], [0], [0], [0], [0], [0], [0], [0]]
    canInterpolate := false
    targets := none
    targetDim := 0 }

/-- A 2-D numpy array of shape `(rows, cols)`; only its shape and entries
matter to the embedded code. -/
structure Arr2 where
  rows : ℕ
  cols : ℕ
  data : List (List ℚ)
  deriving Repr, DecidableEq

/-- `set_targets(targets)`: raises iff the check
`if not (targets.shape[0] != 8)` fires, i.e. exactly when the first
dimension *equals* 8; otherwise stores the array, sets
`target_dim = targets.shape[1]` and `can_interpolate = True`. -/
def set_targets (m : LinearInterpModel) (ts : Arr2) : Except PyErr LinearInterpModel :=
  if ts.rows = 8 then .error .shapeError
  else .ok { m with targets := some ts.data, targetDim := ts.cols, canInterpolate := true }

/-- `set_target(vertex_idx, targets)`: requires a `(1,N)` array
(`targets.shape[0] == 1`), overwrites the vertex's `target_group`, then
sets `can_interpolate = True` if every vertex's `target_group` has
positive size (it is never reset to `False`).  `targets` is passed as the
list of rows of the `(1,N)` array; the stored row is its flattening.
An out-of-range `vertex_idx` is a Python `IndexError`. -/
def set_target (m : LinearInterpModel) (vertexIdx : ℕ) (targets : List (List ℚ)) :
    Except PyErr LinearInterpModel :=
  if targets.length ≠ 1 then .error .shapeError
  else if vertexIdx ≥ m.targetGroups.length then .error .indexError
  else
    let groups := m.targetGroups.set vertexIdx targets.flatten
    .ok { m with
          targetGroups := groups
          canInterpolate :=
            if groups.all (fun g => g.length > 0) then true else m.canInterpolate }

/-- One simplex scan step: fetch the four vertex positions and the four
target rows of a simplex's `vertex_indices` (all constructed indices are
in range).  Mirrors the two `np.array([... for idx in simplex.vertex_indices])`
builds in `LinearInterpModel.interpolate`. -/
def simplexData (m : LinearInterpModel) (s : List ℕ) :
    Option ((Vec3 × Vec3 × Vec3 × Vec3) × (List ℚ × List ℚ × List ℚ × List ℚ)) :=
  match s with
  | [i0, i1, i2, i3] =>
    match cubeVertices[i0]?, cubeVertices[i1]?,
          cubeVertices[i2]?, cubeVertices[i3]?,
          m.targetGroups[i0]?, m.targetGroups[i1]?,
          m.targetGroups[i2]?, m.targetGroups[i3]? with
    | some a, some b, some c, some d, some t0, some t1, some t2, some t3 =>
        some ((a, b, c, d), (t0, t1, t2, t3))
    | _, _, _, _, _, _, _, _ => none
  | _ => none

/-- The scan loop of `LinearInterpModel.interpolate`: try the simplices in
construction order; on the first passing `hit_test` return the module-level
`interpolate` of that simplex; raise the out-of-range `ValueError` if none
passes.  A vertex array that is not `4×3` raises the shape `ValueError`
of `to_barycentric`; a list index out of range is an `IndexError`; a
singular solve is a `LinAlgError`. -/
def interpScan (m : LinearInterpModel) (p : Vec3) : List (List ℕ) → Except PyErr (List ℚ)
  | [] => .error .outOfRange
  | s :: rest =>
    match simplexData m s with
    | none => .error (if s.length = 4 then .indexError else .shapeError)
    | some ((a, b, c, d), (t0, t1, t2, t3)) =>
      match hitTest a b c d p with
      | none => .error .numerical
      | some true =>
        match interpValues a b c d t0 t1 t2 t3 p with
        | none => .error .numerical
        | some v => .ok v
      | some false => interpScan m p rest

/-- `LinearInterpModel.interpolate(point)`. -/
def interpolate (m : LinearInterpModel) (p : Vec3) : Except PyErr (List ℚ) :=
  if !m.canInterpolate then .error .notConfigured
  else interpScan m p simplexIdxs

end LinearInterpModel

namespace LinearInterpModel

/-- `hit_test(simplex_vertices, p)` for one of the model's fixed
simplices: look up the simplex's four vertex positions and run
`hit_test`.  (All constructed index lists have four in-range entries.) -/
def hitTestSimplex (s : List ℕ) (p : Vec3) : Option Bool :=
  match s with
  | [i0, i1, i2, i3] =>
    match cubeVertices[i0]?, cubeVertices[i1]?,
          cubeVertices[i2]?, cubeVertices[i3]? with
    | some a, some b, some c, some d => hitTest a b c d p
    | _, _, _, _ => none
  | _ => none

end LinearInterpModel

/-- The Cramer solution returned by `toBarycentric` really solves the
linear system built by `to_barycentric`: the weighted vertex coordinates
reproduce the point and the weights sum to 1.  (Sanity check that the
embedding of `np.linalg.solve` is the solution of the system.) -/
theorem toBarycentric_solves (a b c d p : Vec3) (l : Bary)
    (h : toBarycentric a b c d p = some l) :
    l.l0 * a.x + l.l1 * b.x + l.l2 * c.x + l.l3 * d.x = p.x ∧
    l.l0 * a.y + l.l1 * b.y + l.l2 * c.y + l.l3 * d.y = p.y ∧
    l.l0 * a.z + l.l1 * b.z + l.l2 * c.z + l.l3 * d.z = p.z ∧
    l.l0 + l.l1 + l.l2 + l.l3 = 1 := by
  by_cases hdet : det4 a.x b.x c.x d.x a.y b.y c.y d.y a.z b.z c.z d.z 1 1 1 1 = 0
  · simp [toBarycentric, hdet] at h
  · simp only [toBarycentric, hdet, if_false] at h
    obtain rfl : _ = l := Option.some_injective _ h
    refine ⟨?_, ?_, ?_, ?_⟩ <;>
      field_simp <;>
      unfold det4 det3 <;>
      ring

/-- Witness that `toBarycentric_solves` applies: the system of the first
fixed simplex solved at the cube centre. -/
theorem toBarycentric_solves_witness :
    ∃ l : Bary, toBarycentric ⟨-1,1,1⟩ ⟨1,1,1⟩ ⟨1,1,-1⟩ ⟨1,-1,1⟩ ⟨0,0,0⟩ = some l ∧
      (l.l0 * (-1) + l.l1 * 1 + l.l2 * 1 + l.l3 * 1 = 0 ∧
       l.l0 * 1 + l.l1 * 1 + l.l2 * 1 + l.l3 * (-1) = 0 ∧
       l.l0 * 1 + l.l1 * 1 + l.l2 * (-1) + l.l3 * 1 = 0 ∧
       l.l0 + l.l1 + l.l2 + l.l3 = 1) := by
  refine ⟨⟨1/2, -1/2, 1/2, 1/2⟩, by norm_num [toBarycentric, det4, det3], ?_⟩
  have h := toBarycentric_solves ⟨-1,1,1⟩ ⟨1,1,1⟩ ⟨1,1,-1⟩ ⟨1,-1,1⟩ ⟨0,0,0⟩
    ⟨1/2, -1/2, 1/2, 1/2⟩ (by norm_num [toBarycentric, det4, det3])
  simpa using h

namespace LinearInterpModel

/-- Simplex `[0,1,2,5]` contains every cube point with `x + y + z ≥ 1`. -/
lemma hit_simplex0 (x y z : ℚ) (hx1 : -1 ≤ x) (hx2 : x ≤ 1) (hy1 : -1 ≤ y) (hy2 : y ≤ 1)
    (hz1 : -1 ≤ z) (hz2 : z ≤ 1) (hs : 1 ≤ x + y + z) :
    hitTest ⟨-1,1,1⟩ ⟨1,1,1⟩ ⟨1,1,-1⟩ ⟨1,-1,1⟩ ⟨x,y,z⟩ = some true := by
  unfold hitTest toBarycentric
  norm_num [det4, det3]
  exact ⟨by linarith, by linarith, by linarith, by linarith,
         by linarith, by linarith, by linarith, by linarith⟩

/-- The central simplex `[0,2,5,7]` contains every cube point with
`x+y+z ≤ 1`, `z-x-y ≤ 1`, `y-x-z ≤ 1` and `x-y-z ≤ 1`. -/
lemma hit_simplex1 (x y z : ℚ) (hx1 : -1 ≤ x) (hx2 : x ≤ 1) (hy1 : -1 ≤ y) (hy2 : y ≤ 1)
    (hz1 : -1 ≤ z) (hz2 : z ≤ 1) (h1 : x + y + z ≤ 1) (h2 : z - x - y ≤ 1)
    (h3 : y - x - z ≤ 1) (h4 : x - y - z ≤ 1) :
    hitTest ⟨-1,1,1⟩ ⟨1,1,-1⟩ ⟨1,-1,1⟩ ⟨-1,-1,-1⟩ ⟨x,y,z⟩ = some true := by
  unfold hitTest toBarycentric
  norm_num [det4, det3]
  exact ⟨by linarith, by linarith, by linarith, by linarith,
         by linarith, by linarith, by linarith, by linarith⟩

/-- Simplex `[0,4,5,7]` contains every cube point with `z - x - y ≥ 1`. -/
lemma hit_simplex2 (x y z : ℚ) (hx1 : -1 ≤ x) (hx2 : x ≤ 1) (hy1 : -1 ≤ y) (hy2 : y ≤ 1)
    (hz1 : -1 ≤ z) (hz2 : z ≤ 1) (hs : 1 ≤ z - x - y) :
    hitTest ⟨-1,1,1⟩ ⟨-1,-1,1⟩ ⟨1,-1,1⟩ ⟨-1,-1,-1⟩ ⟨x,y,z⟩ = some true := by
  unfold hitTest toBarycentric
  norm_num [det4, det3]
  exact ⟨by linarith, by linarith, by linarith, by linarith,
         by linarith, by linarith, by linarith, by linarith⟩

/-- Simplex `[0,2,3,7]` contains every cube point with `y - x - z ≥ 1`. -/
lemma hit_simplex3 (x y z : ℚ) (hx1 : -1 ≤ x) (hx2 : x ≤ 1) (hy1 : -1 ≤ y) (hy2 : y ≤ 1)
    (hz1 : -1 ≤ z) (hz2 : z ≤ 1) (hs : 1 ≤ y - x - z) :
    hitTest ⟨-1,1,1⟩ ⟨1,1,-1⟩ ⟨-1,1,-1⟩ ⟨-1,-1,-1⟩ ⟨x,y,z⟩ = some true := by
  unfold hitTest toBarycentric
  norm_num [det4, det3]
  exact ⟨by linarith, by linarith, by linarith, by linarith,
         by linarith, by linarith, by linarith, by linarith⟩

/-- Simplex `[2,5,6,7]` contains every cube point with `x - y - z ≥ 1`. -/
lemma hit_simplex4 (x y z : ℚ) (hx1 : -1 ≤ x) (hx2 : x ≤ 1) (hy1 : -1 ≤ y) (hy2 : y ≤ 1)
    (hz1 : -1 ≤ z) (hz2 : z ≤ 1) (hs : 1 ≤ x - y - z) :
    hitTest ⟨1,1,-1⟩ ⟨1,-1,1⟩ ⟨1,-1,-1⟩ ⟨-1,-1,-1⟩ ⟨x,y,z⟩ = some true := by
  unfold hitTest toBarycentric
  norm_num [det4, det3]
  exact ⟨by linarith, by linarith, by linarith, by linarith,
         by linarith, by linarith, by linarith, by linarith⟩

end LinearInterpModel

/-- C1.  Cover property: every point with all three coordinates strictly
inside `(-1, 1)` passes `hit_test` for at least one of the 5 fixed
simplices of `LinearInterpModel.__init__`. -/
theorem cover_property (p : Vec3)
    (hx1 : -1 < p.x) (hx2 : p.x < 1) (hy1 : -1 < p.y) (hy2 : p.y < 1)
    (hz1 : -1 < p.z) (hz2 : p.z < 1) :
    ∃ s ∈ LinearInterpModel.simplexIdxs, LinearInterpModel.hitTestSimplex s p = some true := by
  obtain ⟨x, y, z⟩ := p
  simp only at hx1 hx2 hy1 hy2 hz1 hz2
  have hx1' := le_of_lt hx1
  have hx2' := le_of_lt hx2
  have hy1' := le_of_lt hy1
  have hy2' := le_of_lt hy2
  have hz1' := le_of_lt hz1
  have hz2' := le_of_lt hz2
  rcases le_or_lt 1 (x + y + z) with h0 | h0
  · exact ⟨[0, 1, 2, 5], by simp [LinearInterpModel.simplexIdxs],
      by simpa [LinearInterpModel.hitTestSimplex, LinearInterpModel.cubeVertices] using
        LinearInterpModel.hit_simplex0 x y z hx1' hx2' hy1' hy2' hz1' hz2' h0⟩
  rcases le_or_lt 1 (z - x - y) with h2 | h2
  · exact ⟨[0, 4, 5, 7], by simp [LinearInterpModel.simplexIdxs],
      by simpa [LinearInterpModel.hitTestSimplex, LinearInterpModel.cubeVertices] using
        LinearInterpModel.hit_simplex2 x y z hx1' hx2' hy1' hy2' hz1' hz2' h2⟩
  rcases le_or_lt 1 (y - x - z) with h3 | h3
  · exact ⟨[0, 2, 3, 7], by simp [LinearInterpModel.simplexIdxs],
      by simpa [LinearInterpModel.hitTestSimplex, LinearInterpModel.cubeVertices] using
        LinearInterpModel.hit_simplex3 x y z hx1' hx2' hy1' hy2' hz1' hz2' h3⟩
  rcases le_or_lt 1 (x - y - z) with h4 | h4
  · exact ⟨[2, 5, 6, 7], by simp [LinearInterpModel.simplexIdxs],
      by simpa [LinearInterpModel.hitTestSimplex, LinearInterpModel.cubeVertices] using
        LinearInterpModel.hit_simplex4 x y z hx1' hx2' hy1' hy2' hz1' hz2' h4⟩
  · exact ⟨[0, 2, 5, 7], by simp [LinearInterpModel.simplexIdxs],
      by simpa [LinearInterpModel.hitTestSimplex, LinearInterpModel.cubeVertices] using
        LinearInterpModel.hit_simplex1 x y z hx1' hx2' hy1' hy2' hz1' hz2'
          (le_of_lt h0) (le_of_lt h2) (le_of_lt h3) (le_of_lt h4)⟩

/-- Witness for C1: the cube centre is covered. -/
theorem cover_property_witness :
    ∃ s ∈ LinearInterpModel.simplexIdxs,
      LinearInterpModel.hitTestSimplex s ⟨0, 0, 0⟩ = some true :=
  cover_property ⟨0, 0, 0⟩ (by norm_num) (by norm_num) (by norm_num)
    (by norm_num) (by norm_num) (by norm_num)

namespace LinearInterpModel

/-- The first simplex, in construction order, whose `hit_test` passes —
the simplex `LinearInterpModel.interpolate` returns from. -/
def firstHit (p : Vec3) : Option (List ℕ) :=
  simplexIdxs.find? (fun s => hitTestSimplex s p == some true)

/-- The value the spec prescribes for a hit simplex `s`:
`λ₀·target₀ + λ₁·target₁ + λ₂·target₂ + λ₃·target₃` computed from that
simplex's four vertex targets and barycentric weights. -/
def specResult (m : LinearInterpModel) (s : List ℕ) (p : Vec3) : Except PyErr (List ℚ) :=
  match simplexData m s with
  | some ((a, b, c, d), (t0, t1, t2, t3)) =>
    match toBarycentric a b c d p with
    | some l => .ok (wsum l t0 t1 t2 t3)
    | none => .error .numerical
  | none => .error .indexError

lemma toBarycentric_isSome_of_det (a b c d p : Vec3)
    (h : det4 a.x b.x c.x d.x a.y b.y c.y d.y a.z b.z c.z d.z 1 1 1 1 ≠ 0) :
    ∃ l, toBarycentric a b c d p = some l := by
  simp [toBarycentric, h]

lemma hitTestSimplex_of_simplexData (m : LinearInterpModel) (s : List ℕ) (p : Vec3)
    (a b c d : Vec3) (ts : List ℚ × List ℚ × List ℚ × List ℚ)
    (h : simplexData m s = some ((a, b, c, d), ts)) :
    hitTestSimplex s p = hitTest a b c d p := by
  unfold simplexData at h
  unfold hitTestSimplex
  split at h
  · rename_i i0 i1 i2 i3
    split at h
    · simp_all
    · simp_all
  · simp_all

/-- The scan loop returns the spec-prescribed value of the first hit
simplex, provided every scanned simplex resolves to in-range data with a
nonsingular system. -/
lemma interpScan_eq_firstHit (m : LinearInterpModel) (p : Vec3) :
    ∀ L : List (List ℕ),
      (∀ s ∈ L, ∃ a b c d ts, simplexData m s = some ((a, b, c, d), ts) ∧
        ∃ l, toBarycentric a b c d p = some l) →
      interpScan m p L =
        match L.find? (fun s => hitTestSimplex s p == some true) with
        | some s => specResult m s p
        | none => .error .outOfRange
  | [], _ => by simp [interpScan]
  | s :: rest, h => by
    obtain ⟨a, b, c, d, ts, hdata, l, hl⟩ := h s (List.mem_cons_self s rest)
    obtain ⟨t0, t1, t2, t3⟩ := ts
    have hhit : hitTestSimplex s p = hitTest a b c d p :=
      hitTestSimplex_of_simplexData m s p a b c d _ hdata
    have hht : hitTest a b c d p =
        some (decide (0 ≤ l.l0 ∧ l.l0 ≤ 1 ∧ 0 ≤ l.l1 ∧ l.l1 ≤ 1 ∧
                      0 ≤ l.l2 ∧ l.l2 ≤ 1 ∧ 0 ≤ l.l3 ∧ l.l3 ≤ 1)) := by
      simp [hitTest, hl]
    by_cases hin : (0 ≤ l.l0 ∧ l.l0 ≤ 1 ∧ 0 ≤ l.l1 ∧ l.l1 ≤ 1 ∧
                    0 ≤ l.l2 ∧ l.l2 ≤ 1 ∧ 0 ≤ l.l3 ∧ l.l3 ≤ 1)
    · have hht' : hitTest a b c d p = some true := by simp [hht, hin]
      unfold interpScan
      simp only [hdata, hht', List.find?_cons, hhit]
      simp [specResult, hdata, interpValues, hl]
    · have hht' : hitTest a b c d p = some false := by simp [hht, hin]
      have ih := interpScan_eq_firstHit m p rest
        (fun s' hs' => h s' (List.mem_cons_of_mem s hs'))
      unfold interpScan
      simp only [hdata, hht', List.find?_cons, hhit]
      simp only [beq_iff_eq, Option.some.injEq, Bool.false_eq_true, if_false, ih]
      rfl

end LinearInterpModel

lemma exists_getElem?_of_lt {α : Type} (l : List α) (n : ℕ) (h : n < l.length) :
    ∃ a, l[n]? = some a :=
  ⟨l[n], by simp [List.getElem?_eq_getElem h]⟩

/-- C2.  `LinearInterpModel.interpolate` contract: with `can_interpolate`
false it fails with the not-configured error; otherwise it scans the
simplices in construction order and returns, for the first simplex whose
`hit_test` passes, the barycentric combination of that simplex's four
vertex targets; if no simplex contains the point it fails with the
out-of-range error.  (`targetGroups` has 8 entries in every state the
class constructs.) -/
theorem interpolate_contract (m : LinearInterpModel) (p : Vec3)
    (hlen : m.targetGroups.length = 8) :
    m.interpolate p =
      if m.canInterpolate then
        match LinearInterpModel.firstHit p with
        | some s => m.specResult s p
        | none => .error .outOfRange
      else .error .notConfigured := by
  obtain ⟨g0, hg0⟩ := exists_getElem?_of_lt m.targetGroups 0 (by omega)
  obtain ⟨g1, hg1⟩ := exists_getElem?_of_lt m.targetGroups 1 (by omega)
  obtain ⟨g2, hg2⟩ := exists_getElem?_of_lt m.targetGroups 2 (by omega)
  obtain ⟨g3, hg3⟩ := exists_getElem?_of_lt m.targetGroups 3 (by omega)
  obtain ⟨g4, hg4⟩ := exists_getElem?_of_lt m.targetGroups 4 (by omega)
  obtain ⟨g5, hg5⟩ := exists_getElem?_of_lt m.targetGroups 5 (by omega)
  obtain ⟨g6, hg6⟩ := exists_getElem?_of_lt m.targetGroups 6 (by omega)
  obtain ⟨g7, hg7⟩ := exists_getElem?_of_lt m.targetGroups 7 (by omega)
  cases hc : m.canInterpolate with
  | false => simp [LinearInterpModel.interpolate, hc]
  | true =>
    have hscan := LinearInterpModel.interpScan_eq_firstHit m p
      LinearInterpModel.simplexIdxs ?_
    · simpa [LinearInterpModel.interpolate, hc, LinearInterpModel.firstHit] using hscan
    · intro s hs
      simp only [LinearInterpModel.simplexIdxs, List.mem_cons, List.not_mem_nil,
        or_false] at hs
      rcases hs with rfl | rfl | rfl | rfl | rfl
      · exact ⟨⟨-1,1,1⟩, ⟨1,1,1⟩, ⟨1,1,-1⟩, ⟨1,-1,1⟩, (g0, g1, g2, g5),
          by simp [LinearInterpModel.simplexData, LinearInterpModel.cubeVertices,
            hg0, hg1, hg2, hg5],
          LinearInterpModel.toBarycentric_isSome_of_det _ _ _ _ p
            (by norm_num [det4, det3])⟩
      · exact ⟨⟨-1,1,1⟩, ⟨1,1,-1⟩, ⟨1,-1,1⟩, ⟨-1,-1,-1⟩, (g0, g2, g5, g7),
          by simp [LinearInterpModel.simplexData, LinearInterpModel.cubeVertices,
            hg0, hg2, hg5, hg7],
          LinearInterpModel.toBarycentric_isSome_of_det _ _ _ _ p
            (by norm_num [det4, det3])⟩
      · exact ⟨⟨-1,1,1⟩, ⟨-1,-1,1⟩, ⟨1,-1,1⟩, ⟨-1,-1,-1⟩, (g0, g4, g5, g7),
          by simp [LinearInterpModel.simplexData, LinearInterpModel.cubeVertices,
            hg0, hg4, hg5, hg7],
          LinearInterpModel.toBarycentric_isSome_of_det _ _ _ _ p
            (by norm_num [det4, det3])⟩
      · exact ⟨⟨-1,1,1⟩, ⟨1,1,-1⟩, ⟨-1,1,-1⟩, ⟨-1,-1,-1⟩, (g0, g2, g3, g7),
          by simp [LinearInterpModel.simplexData, LinearInterpModel.cubeVertices,
            hg0, hg2, hg3, hg7],
          LinearInterpModel.toBarycentric_isSome_of_det _ _ _ _ p
            (by norm_num [det4, det3])⟩
      · exact ⟨⟨1,1,-1⟩, ⟨1,-1,1⟩, ⟨1,-1,-1⟩, ⟨-1,-1,-1⟩, (g2, g5, g6, g7),
          by simp [LinearInterpModel.simplexData, LinearInterpModel.cubeVertices,
            hg2, hg5, hg6, hg7],
          LinearInterpModel.toBarycentric_isSome_of_det _ _ _ _ p
            (by norm_num [det4, det3])⟩

/-- A fully calibrated sample state: all 8 `target_group`s set to the
1-dimensional row `[1]`, `can_interpolate` true. -/
def sampleCalibrated : LinearInterpModel :=
  { targetGroups := List.replicate 8 [1], canInterpolate := true,
    targets := none, targetDim := 0 }

/-- Witness for C2: on the calibrated sample state the contract evaluates
at the cube centre to the weighted combination `[1]` (the centre lies in
the second simplex `[0,2,5,7]`). -/
theorem interpolate_contract_witness :
    sampleCalibrated.targetGroups.length = 8 ∧
    sampleCalibrated.interpolate ⟨0, 0, 0⟩ = .ok [1] := by
  refine ⟨by rfl, ?_⟩
  have h := interpolate_contract sampleCalibrated ⟨0, 0, 0⟩ (by rfl)
  rw [h]
  norm_num [LinearInterpModel.firstHit, LinearInterpModel.simplexIdxs,
    LinearInterpModel.hitTestSimplex, LinearInterpModel.cubeVertices, hitTest,
    toBarycentric, det4, det3, LinearInterpModel.specResult,
    LinearInterpModel.simplexData, wsum, addV, scaleV, sampleCalibrated]

/-- C3.  Evaluation of the readiness bug at the failing input: on a fresh
model a *single* `set_target` write (vertex 0, target `[[5]]`) already
flips `can_interpolate` to true, because `Vertex.__init__` initialises
every `target_group` to `np.zeros((1,))` — an array of size 1 — so the
readiness recomputation `all([v.target_group.size > 0 for v in
self.vertices])` is satisfied before any calibration has happened.  The
spec requires `can_interpolate` to stay false until all 8 vertices hold
assigned targets. -/
theorem set_target_once_sets_canInterpolate :
    LinearInterpModel.init.canInterpolate = false ∧
    (LinearInterpModel.init.set_target 0 [[5]]).map (fun m => m.canInterpolate) =
      .ok true := by
  constructor
  · rfl
  · rfl

/-- The state of a `DexHandController` relevant to model setup and pose
moves.  Claims are evaluated on constructed controllers, whose `_arm` and
`_hand` handles are always non-`None` (`__init__` raises otherwise), so
`__validate_instances` always passes and the handles are not modelled.

* `modelType` — `_model_type`, the numeric value of the `ModelType`
  protobuf enum (class default `MODEL_TYPE_UNSPECIFIED`);
* `lerp` — `_lerp`; a class-level annotation only, unset
  (`AttributeError` on access) until `setup_model` assigns it. -/
structure DexHandController where
  modelType : ℕ
  lerp : Option LinearInterpModel
  deriving Repr, DecidableEq

/-- Modelled from the spec: the generated `ModelType` protobuf enum
(`ts.dexhand.v1`) is produced from the RPC schema (spec §6,
`SetupModel(id, model_type, calibration_data)`) and is not part of the
source tree.  Proto3 enum numbering fixes the `*_UNSPECIFIED` default at
0 and gives every other member a distinct nonzero value; we use
`MODEL_TYPE_UNSPECIFIED = 0`, `MODEL_TYPE_LERP = 1`, `MODEL_TYPE_IK = 2`.
Python truthiness of `self._model_type` is `modelType ≠ 0`. -/
def modelTypeUnspecified : ℕ := 0

/-- `ModelType.MODEL_TYPE_LERP` (see `modelTypeUnspecified`). -/
def modelTypeLerp : ℕ := 1

/-- `ModelType.MODEL_TYPE_IK` (see `modelTypeUnspecified`). -/
def modelTypeIk : ℕ := 2

/-- A freshly constructed controller: `_model_type` has its class default
`MODEL_TYPE_UNSPECIFIED` and `_lerp` is unset. -/
def DexHandController.initCtrl : DexHandController :=
  { modelType := modelTypeUnspecified, lerp := none }

namespace DexHandController

/-- `DexHandController.setup_model(model_type, data)`: records the model
type, then for `MODEL_TYPE_LERP` builds a fresh `LinearInterpModel` and
calls `set_targets(np.array(data))`; `MODEL_TYPE_IK` and any other type
raise `ValueError`.  (In Python the `_model_type` assignment survives a
subsequent exception; the `Except` embedding drops the partial state on
error, which no claim observes.) -/
def setup_model (c : DexHandController) (mt : ℕ) (data : LinearInterpModel.Arr2) :
    Except PyErr DexHandController :=
  if mt = modelTypeLerp then
    (LinearInterpModel.init.set_targets data).map
      (fun m => { c with modelType := mt, lerp := some m })
  else if mt = modelTypeIk then .error .invalidValue
  else .error .invalidValue

/-- Arm commands a controller operation can issue to its `PiperArm`. -/
inductive ArmCmd where
  | moveJ (joints : List ℚ)
  deriving Repr, DecidableEq

/-- `DexHandController.move_p_ik`: validates the handles, then the `try`
body is a bare `pass` — no interpolation, no arm command. -/
def move_p_ik (_c : DexHandController) (_pose : List ℚ) : Except PyErr (List ArmCmd) :=
  .ok []

/-- `DexHandController._move_p_lerp`: validates the handles; raises (via
the generic `except`-wrapper) if `_lerp` is unset or not ready; otherwise
computes `joints = self._lerp.interpolate(np.array(pose))`.  The forward
`self._arm.move_j(joints[0])` is *commented out* in the source, so no arm
command is issued even on success; every exception in the `try` block is
re-raised wrapped in `Exception(f"Failed to move to pose: {e}")`. -/
def move_p_lerp (c : DexHandController) (pose : List ℚ) : Except PyErr (List ArmCmd) :=
  match c.lerp with
  | none => .error (.wrapped .attributeError)
  | some m =>
    if !m.canInterpolate then .error (.wrapped .notConfigured)
    else
      match pose with
      | [x, y, z] =>
        match m.interpolate ⟨x, y, z⟩ with
        | .ok _joints => .ok []
        | .error e => .error (.wrapped e)
      | _ => .error (.wrapped .shapeError)

/-- `DexHandController.move_p(pose)`: branches on the *truthiness* of
`self._model_type` — any configured (nonzero) model type goes to
`move_p_ik`, and only the unconfigured default reaches `_move_p_lerp`. -/
def move_p (c : DexHandController) (pose : List ℚ) : Except PyErr (List ArmCmd) :=
  if c.modelType ≠ 0 then move_p_ik c pose else move_p_lerp c pose

end DexHandController

/-- C6.  Evaluation of the `move_p` dispatch bug: for a controller whose
`_model_type` is `MODEL_TYPE_LERP` (i.e. a workspace mapper *is*
configured), `move_p` takes the truthy branch into `move_p_ik`, whose
body is `pass` — it succeeds with no interpolation and no arm command,
whatever the mapper state and whatever the pose (even one the mapper
would reject as out of range). -/
theorem move_p_with_lerp_configured_is_noop
    (l : Option LinearInterpModel) (pose : List ℚ) :
    DexHandController.move_p { modelType := modelTypeLerp, lerp := l } pose =
      .ok [] := by
  simp [DexHandController.move_p, DexHandController.move_p_ik, modelTypeLerp]

/-- C9.  The inverted shape check of `set_targets`: it raises exactly on
arrays whose first dimension *equals* 8 (the documented valid `8×N`
shape), and for any other row count it stores the array and flips
`can_interpolate` to true; consequently `setup_model(MODEL_TYPE_LERP, ·)`
fails exactly on 8-row calibration data and silently succeeds otherwise. -/
theorem set_targets_shape_check_inverted (m : LinearInterpModel)
    (c : DexHandController) (ts : LinearInterpModel.Arr2) :
    ((∃ e, m.set_targets ts = .error e) ↔ ts.rows = 8) ∧
    (ts.rows ≠ 8 → ∃ m', m.set_targets ts = .ok m' ∧
        m'.canInterpolate = true ∧ m'.targets = some ts.data) ∧
    ((∃ e, c.setup_model modelTypeLerp ts = .error e) ↔ ts.rows = 8) ∧
    (ts.rows ≠ 8 → ∃ c', c.setup_model modelTypeLerp ts = .ok c' ∧
        ∃ m', c'.lerp = some m' ∧ m'.canInterpolate = true) := by
  by_cases h : ts.rows = 8 <;>
    simp [LinearInterpModel.set_targets, DexHandController.setup_model, h, Except.map]

/-- Witness for C9: `set_targets` on a valid `8×6` array raises, while
`setup_model(MODEL_TYPE_LERP, ·)` on a `9×6` array succeeds with
`can_interpolate` true. -/
theorem set_targets_shape_check_inverted_witness :
    (∃ e, LinearInterpModel.init.set_targets
        ⟨8, 6, List.replicate 8 (List.replicate 6 0)⟩ = .error e) ∧
    (∃ c', DexHandController.initCtrl.setup_model modelTypeLerp
        ⟨9, 6, List.replicate 9 (List.replicate 6 0)⟩ = .ok c' ∧
        ∃ m', c'.lerp = some m' ∧ m'.canInterpolate = true) := by
  constructor
  · exact (set_targets_shape_check_inverted LinearInterpModel.init
      DexHandController.initCtrl ⟨8, 6, List.replicate 8 (List.replicate 6 0)⟩).1.mpr rfl
  · exact (set_targets_shape_check_inverted LinearInterpModel.init
      DexHandController.initCtrl ⟨9, 6, List.replicate 9 (List.replicate 6 0)⟩).2.2.2
      (by norm_num)

lemma wsum_cons (l : Bary) (x0 x1 x2 x3 : ℚ) (xs0 xs1 xs2 xs3 : List ℚ) :
    wsum l (x0::xs0) (x1::xs1) (x2::xs2) (x3::xs3) =
      (l.l0*x0 + l.l1*x1 + l.l2*x2 + l.l3*x3) :: wsum l xs0 xs1 xs2 xs3 := rfl

lemma wsum_nil (l : Bary) (t1 t2 t3 : List ℚ) : wsum l [] t1 t2 t3 = [] := rfl

lemma wsum_hot0 (t0 t1 t2 t3 : List ℚ) (h1 : t1.length = t0.length)
    (h2 : t2.length = t0.length) (h3 : t3.length = t0.length) :
    wsum ⟨1, 0, 0, 0⟩ t0 t1 t2 t3 = t0 := by
  induction t0 generalizing t1 t2 t3 with
  | nil => exact wsum_nil _ _ _ _
  | cons y ys ih =>
    cases t1 with
    | nil => simp at h1
    | cons x1 xs1 =>
      cases t2 with
      | nil => simp at h2
      | cons x2 xs2 =>
        cases t3 with
        | nil => simp at h3
        | cons x3 xs3 =>
          rw [wsum_cons]
          have he : (1:ℚ)*y + 0*x1 + 0*x2 + 0*x3 = y := by ring
          rw [he, ih xs1 xs2 xs3 (by simpa using h1) (by simpa using h2)
            (by simpa using h3)]

lemma wsum_hot1 (t0 t1 t2 t3 : List ℚ) (h0 : t0.length = t1.length)
    (h2 : t2.length = t1.length) (h3 : t3.length = t1.length) :
    wsum ⟨0, 1, 0, 0⟩ t0 t1 t2 t3 = t1 := by
  induction t1 generalizing t0 t2 t3 with
  | nil =>
    cases t0 with
    | nil => exact wsum_nil _ _ _ _
    | cons _ _ => simp at h0
  | cons y ys ih =>
    cases t0 with
    | nil => simp at h0
    | cons x0 xs0 =>
      cases t2 with
      | nil => simp at h2
      | cons x2 xs2 =>
        cases t3 with
        | nil => simp at h3
        | cons x3 xs3 =>
          rw [wsum_cons]
          have he : (0:ℚ)*x0 + 1*y + 0*x2 + 0*x3 = y := by ring
          rw [he, ih xs0 xs2 xs3 (by simpa using h0) (by simpa using h2)
            (by simpa using h3)]

lemma wsum_hot2 (t0 t1 t2 t3 : List ℚ) (h0 : t0.length = t2.length)
    (h1 : t1.length = t2.length) (h3 : t3.length = t2.length) :
    wsum ⟨0, 0, 1, 0⟩ t0 t1 t2 t3 = t2 := by
  induction t2 generalizing t0 t1 t3 with
  | nil =>
    cases t0 with
    | nil => exact wsum_nil _ _ _ _
    | cons _ _ => simp at h0
  | cons y ys ih =>
    cases t0 with
    | nil => simp at h0
    | cons x0 xs0 =>
      cases t1 with
      | nil => simp at h1
      | cons x1 xs1 =>
        cases t3 with
        | nil => simp at h3
        | cons x3 xs3 =>
          rw [wsum_cons]
          have he : (0:ℚ)*x0 + 0*x1 + 1*y + 0*x3 = y := by ring
          rw [he, ih xs0 xs1 xs3 (by simpa using h0) (by simpa using h1)
            (by simpa using h3)]

lemma wsum_hot3 (t0 t1 t2 t3 : List ℚ) (h0 : t0.length = t3.length)
    (h1 : t1.length = t3.length) (h2 : t2.length = t3.length) :
    wsum ⟨0, 0, 0, 1⟩ t0 t1 t2 t3 = t3 := by
  induction t3 generalizing t0 t1 t2 with
  | nil =>
    cases t0 with
    | nil => exact wsum_nil _ _ _ _
    | cons _ _ => simp at h0
  | cons y ys ih =>
    cases t0 with
    | nil => simp at h0
    | cons x0 xs0 =>
      cases t1 with
      | nil => simp at h1
      | cons x1 xs1 =>
        cases t2 with
        | nil => simp at h2
        | cons x2 xs2 =>
          rw [wsum_cons]
          have he : (0:ℚ)*x0 + 0*x1 + 0*x2 + 1*y = y := by ring
          rw [he, ih xs0 xs1 xs2 (by simpa using h0) (by simpa using h1)
            (by simpa using h2)]

namespace LinearInterpModel

/-- Eight successive `set_target` calls, one per vertex in index order,
each passing the `(1,N)` row of targets for that vertex — the calibration
sequence that assigns all 8 vertices. -/
def calibrateAll (n : ℕ) (t : Fin 8 → Fin n → ℚ) : Except PyErr LinearInterpModel :=
  (init.set_target 0 [List.ofFn (t 0)]).bind fun m1 =>
  (m1.set_target 1 [List.ofFn (t 1)]).bind fun m2 =>
  (m2.set_target 2 [List.ofFn (t 2)]).bind fun m3 =>
  (m3.set_target 3 [List.ofFn (t 3)]).bind fun m4 =>
  (m4.set_target 4 [List.ofFn (t 4)]).bind fun m5 =>
  (m5.set_target 5 [List.ofFn (t 5)]).bind fun m6 =>
  (m6.set_target 6 [List.ofFn (t 6)]).bind fun m7 =>
  m7.set_target 7 [List.ofFn (t 7)]

/-- A full calibration pass succeeds and leaves every vertex's
`target_group` at its assigned row, with `can_interpolate` true. -/
lemma calibrateAll_eq (n : ℕ) (hn : 0 < n) (t : Fin 8 → Fin n → ℚ) :
    calibrateAll n t = .ok
      { targetGroups := [List.ofFn (t 0), List.ofFn (t 1), List.ofFn (t 2),
          List.ofFn (t 3), List.ofFn (t 4), List.ofFn (t 5), List.ofFn (t 6),
          List.ofFn (t 7)]
        canInterpolate := true
        targets := none
        targetDim := 0 } := by
  simp [calibrateAll, set_target, init, hn, Except.bind]

/-- `vertex_i.position`: the coordinates of cube corner `i`. -/
def vertexPos (i : Fin 8) : Vec3 := cubeVertices.getD i.val ⟨0, 0, 0⟩

end LinearInterpModel

/-- C8.  Exactness at vertices: after all 8 cube vertices are calibrated
(in index order, targets of a common positive dimension `n`),
`interpolate` at vertex `i`'s position returns exactly vertex `i`'s
target row — the barycentric solve of the first scanned simplex
containing the vertex is one-hot there. -/
theorem interpolate_exact_at_vertices (n : ℕ) (hn : 0 < n)
    (t : Fin 8 → Fin n → ℚ) (i : Fin 8) :
    (LinearInterpModel.calibrateAll n t).bind
      (fun m => m.interpolate (LinearInterpModel.vertexPos i)) =
      .ok (List.ofFn (t i)) := by
  rw [LinearInterpModel.calibrateAll_eq n hn t]
  show (LinearInterpModel.interpolate _ _) = _
  fin_cases i
  · norm_num [LinearInterpModel.vertexPos, LinearInterpModel.cubeVertices,
      LinearInterpModel.interpolate, LinearInterpModel.interpScan,
      LinearInterpModel.simplexIdxs, LinearInterpModel.simplexData,
      hitTest, interpValues, toBarycentric, det4, det3]
    exact wsum_hot0 _ _ _ _ (by simp) (by simp) (by simp)
  · norm_num [LinearInterpModel.vertexPos, LinearInterpModel.cubeVertices,
      LinearInterpModel.interpolate, LinearInterpModel.interpScan,
      LinearInterpModel.simplexIdxs, LinearInterpModel.simplexData,
      hitTest, interpValues, toBarycentric, det4, det3]
    exact wsum_hot1 _ _ _ _ (by simp) (by simp) (by simp)
  · norm_num [LinearInterpModel.vertexPos, LinearInterpModel.cubeVertices,
      LinearInterpModel.interpolate, LinearInterpModel.interpScan,
      LinearInterpModel.simplexIdxs, LinearInterpModel.simplexData,
      hitTest, interpValues, toBarycentric, det4, det3]
    exact wsum_hot2 _ _ _ _ (by simp) (by simp) (by simp)
  · norm_num [LinearInterpModel.vertexPos, LinearInterpModel.cubeVertices,
      LinearInterpModel.interpolate, LinearInterpModel.interpScan,
      LinearInterpModel.simplexIdxs, LinearInterpModel.simplexData,
      hitTest, interpValues, toBarycentric, det4, det3]
    exact wsum_hot2 _ _ _ _ (by simp) (by simp) (by simp)
  · norm_num [LinearInterpModel.vertexPos, LinearInterpModel.cubeVertices,
      LinearInterpModel.interpolate, LinearInterpModel.interpScan,
      LinearInterpModel.simplexIdxs, LinearInterpModel.simplexData,
      hitTest, interpValues, toBarycentric, det4, det3]
    exact wsum_hot1 _ _ _ _ (by simp) (by simp) (by simp)
  · norm_num [LinearInterpModel.vertexPos, LinearInterpModel.cubeVertices,
      LinearInterpModel.interpolate, LinearInterpModel.interpScan,
      LinearInterpModel.simplexIdxs, LinearInterpModel.simplexData,
      hitTest, interpValues, toBarycentric, det4, det3]
    exact wsum_hot3 _ _ _ _ (by simp) (by simp) (by simp)
  · norm_num [LinearInterpModel.vertexPos, LinearInterpModel.cubeVertices,
      LinearInterpModel.interpolate, LinearInterpModel.interpScan,
      LinearInterpModel.simplexIdxs, LinearInterpModel.simplexData,
      hitTest, interpValues, toBarycentric, det4, det3]
    exact wsum_hot2 _ _ _ _ (by simp) (by simp) (by simp)
  · norm_num [LinearInterpModel.vertexPos, LinearInterpModel.cubeVertices,
      LinearInterpModel.interpolate, LinearInterpModel.interpScan,
      LinearInterpModel.simplexIdxs, LinearInterpModel.simplexData,
      hitTest, interpValues, toBarycentric, det4, det3]
    exact wsum_hot3 _ _ _ _ (by simp) (by simp) (by simp)

/-- Witness for C8: with 1-dimensional targets `t i = [i]`, interpolation
at vertex 3's position returns `[3]`. -/
theorem interpolate_exact_at_vertices_witness :
    (LinearInterpModel.calibrateAll 1 (fun i _ => (i.val : ℚ))).bind
      (fun m => m.interpolate (LinearInterpModel.vertexPos 3)) = .ok [3] := by
  have h := interpolate_exact_at_vertices 1 (by norm_num) (fun i _ => (i.val : ℚ)) 3
  simpa [List.ofFn] using h

/-- The state of a `PiperArm` (`models/arm_control.py`): the
`_is_connected` / `_is_enabled` flags.  The vendor driver handle
(`piper_sdk.C_PiperInterface`) is external; its per-joint
`driver_enable_status` reads are supplied to the handshake loops as a
sequence of six-flag snapshots, one per polling iteration. -/
structure PiperArm where
  isConnected : Bool
  isEnabled : Bool
  deriving Repr, DecidableEq

/-- `all(enable_list)` over the six per-joint driver enable flags. -/
def allSix (f : Fin 6 → Bool) : Bool := (List.ofFn f).all (fun b => b)

/-- `any(enable_list)` over the six per-joint driver enable flags. -/
def anySix (f : Fin 6 → Bool) : Bool := (List.ofFn f).any (fun b => b)

/-- `elapsed_time > timeout` at polling iteration `k`.  Iterations are
0.5 s apart (`time.sleep(0.5)` at the end of each one), so iteration `k`
runs at elapsed time `0.5·k` s — `500·k` ms against the 5000 ms
(`timeout = 5`) deadline. -/
def deadlineHit (k : ℕ) : Bool := decide (500 * k > 5000)

/-- One unrolling of the `while not (loop_flag)` body of
`PiperArm.enable`, polling iteration `k` with `fuel` iterations of budget
(12 suffices: `deadlineHit` stops the loop at `k = 11`).  Per iteration
the code reads the six flags, computes `all(...)`, issues `EnableArm(7)`,
and marks success — but the deadline check runs *after* the success
check and overwrites `enable_flag` with `False` when
`elapsed_time > timeout`, even if that very read was all-true. -/
def enableFrom (flags : ℕ → Fin 6 → Bool) : ℕ → ℕ → Bool
  | 0, _ => false
  | fuel + 1, k =>
    if deadlineHit k then false
    else if allSix (flags k) then true
    else enableFrom flags fuel (k + 1)

/-- One unrolling of the `PiperArm.disable` loop: per iteration read the
six flags, compute `any(...)`, issue `DisableArm(7)` and the gripper
release; success (no flag still enabled) exits with `enable_flag =
False`, the deadline exits with `enable_flag = True` — `resp` is the
final *enabled-state* flag, not a success boolean. -/
def disableFrom (flags : ℕ → Fin 6 → Bool) : ℕ → ℕ → Bool
  | 0, _ => true
  | fuel + 1, k =>
    if deadlineHit k then true
    else if anySix (flags k) then disableFrom flags fuel (k + 1)
    else false

namespace PiperArm

/-- `PiperArm.enable()`: runs the polling loop and returns `resp =
enable_flag`; afterwards `self._is_enabled = True` is executed
*unconditionally* — also on the timed-out path that returns `False`. -/
def enable (arm : PiperArm) (flags : ℕ → Fin 6 → Bool) : Bool × PiperArm :=
  (enableFrom flags 12 0, { arm with isEnabled := true })

/-- `PiperArm.disable()`: runs the polling loop, then unconditionally
`self._is_enabled = False`. -/
def disable (arm : PiperArm) (flags : ℕ → Fin 6 → Bool) : Bool × PiperArm :=
  (disableFrom flags 12 0, { arm with isEnabled := false })

end PiperArm

/-- Python's `round` (banker's rounding: ties go to the even integer),
used by `joint_ctrl` to convert scaled joint angles to driver units. -/
def pyRound (q : ℚ) : ℤ :=
  if q - ⌊q⌋ < 1/2 then ⌊q⌋
  else if 1/2 < q - ⌊q⌋ then ⌊q⌋ + 1
  else if ⌊q⌋ % 2 = 0 then ⌊q⌋ else ⌊q⌋ + 1

/-- Driver calls issued by `joint_ctrl`. -/
inductive PiperCall where
  | motionCtrl2
  | jointCtrl (j0 j1 j2 j3 j4 j5 : ℤ)
  deriving Repr, DecidableEq

namespace PiperArm

/-- `PiperArm.move_j(joints)`: raises the not-ready `ValueError` unless
connected *and* enabled, the invalid-argument `ValueError` unless exactly
6 joint values are given; otherwise `joint_ctrl` brackets a `JointCtrl`
of the ×1000-scaled, rounded angles between two `MotionCtrl_2` calls. -/
def move_j (arm : PiperArm) (joints : List ℚ) : Except PyErr (List PiperCall) :=
  if ¬(arm.isEnabled && arm.isConnected) then .error .notReady
  else
    match joints with
    | [a, b, c, d, e, f] =>
      .ok [.motionCtrl2,
           .jointCtrl (pyRound (a * 1000)) (pyRound (b * 1000)) (pyRound (c * 1000))
             (pyRound (d * 1000)) (pyRound (e * 1000)) (pyRound (f * 1000)),
           .motionCtrl2]
    | _ => .error .invalidArgument

end PiperArm

lemma enableFrom_spec (flags : ℕ → Fin 6 → Bool) :
    ∀ fuel k, fuel + k = 12 →
      enableFrom flags fuel k =
        decide (∃ j : Fin 11, k ≤ j.val ∧ allSix (flags j.val) = true)
  | 0, k, hf => by
    have hne : ¬∃ j : Fin 11, k ≤ j.val ∧ allSix (flags j.val) = true := by
      rintro ⟨j, hj, -⟩
      have := j.isLt
      omega
    simp [enableFrom, hne]
  | fuel + 1, k, hf => by
    by_cases hd : deadlineHit k = true
    · have hk : 11 ≤ k := by
        have := of_decide_eq_true hd
        omega
      have hne : ¬∃ j : Fin 11, k ≤ j.val ∧ allSix (flags j.val) = true := by
        rintro ⟨j, hj, -⟩
        have := j.isLt
        omega
      simp [enableFrom, hd, hne]
    · have hk : k ≤ 10 := by
        simp [deadlineHit] at hd
        omega
      by_cases ha : allSix (flags k) = true
      · have hex : ∃ j : Fin 11, k ≤ j.val ∧ allSix (flags j.val) = true :=
          ⟨⟨k, by omega⟩, le_refl k, ha⟩
        simp [enableFrom, hd, ha, hex]
      · have ih := enableFrom_spec flags fuel (k + 1) (by omega)
        have hiff : (∃ j : Fin 11, k + 1 ≤ j.val ∧ allSix (flags j.val) = true) ↔
            (∃ j : Fin 11, k ≤ j.val ∧ allSix (flags j.val) = true) := by
          constructor
          · rintro ⟨j, hj, hja⟩
            exact ⟨j, by omega, hja⟩
          · rintro ⟨j, hj, hja⟩
            rcases Nat.eq_or_lt_of_le hj with heq | hlt
            · exact absurd (heq ▸ hja) ha
            · exact ⟨j, by omega, hja⟩
        simp only [enableFrom, hd, if_false, ha, ih]
        exact decide_eq_decide.mpr hiff

lemma disableFrom_spec (flags : ℕ → Fin 6 → Bool) :
    ∀ fuel k, fuel + k = 12 →
      disableFrom flags fuel k =
        !decide (∃ j : Fin 11, k ≤ j.val ∧ anySix (flags j.val) = false)
  | 0, k, hf => by
    have hne : ¬∃ j : Fin 11, k ≤ j.val ∧ anySix (flags j.val) = false := by
      rintro ⟨j, hj, -⟩
      have := j.isLt
      omega
    simp [disableFrom, hne]
  | fuel + 1, k, hf => by
    by_cases hd : deadlineHit k = true
    · have hk : 11 ≤ k := by
        have := of_decide_eq_true hd
        omega
      have hne : ¬∃ j : Fin 11, k ≤ j.val ∧ anySix (flags j.val) = false := by
        rintro ⟨j, hj, -⟩
        have := j.isLt
        omega
      simp [disableFrom, hd, hne]
    · have hk : k ≤ 10 := by
        simp [deadlineHit] at hd
        omega
      by_cases ha : anySix (flags k) = true
      · have ih := disableFrom_spec flags fuel (k + 1) (by omega)
        have hiff : (∃ j : Fin 11, k + 1 ≤ j.val ∧ anySix (flags j.val) = false) ↔
            (∃ j : Fin 11, k ≤ j.val ∧ anySix (flags j.val) = false) := by
          constructor
          · rintro ⟨j, hj, hja⟩
            exact ⟨j, by omega, hja⟩
          · rintro ⟨j, hj, hja⟩
            rcases Nat.eq_or_lt_of_le hj with heq | hlt
            · rw [← heq] at hja
              rw [hja] at ha
              exact absurd ha (by simp)
            · exact ⟨j, by omega, hja⟩
        simp only [disableFrom, hd, if_false, ha, ih]
        exact congrArg (fun b => !b) (decide_eq_decide.mpr hiff)
      · have hex : ∃ j : Fin 11, k ≤ j.val ∧ anySix (flags j.val) = false :=
          ⟨⟨k, by omega⟩, le_refl k, by simpa using ha⟩
        simp [disableFrom, hd, ha, hex]

/-- C4 counterexample: with all six flags reading false on every poll —
the spec's own example, where the claim says `disable()` returns true on
the first poll — `PiperArm.disable` returns `False` (its `resp` is the
final enabled-state flag, which is `False` on the success path). -/
theorem disable_allfalse_counterexample :
    ((PiperArm.mk true true).disable (fun _ _ => false)).1 = false := by
  simp [PiperArm.disable, disableFrom, deadlineHit, anySix]

/-- C4 amended.  Characterization of the bounded-retry handshake under
the discrete timing model (poll `k` at elapsed `0.5·k` s, deadline
`elapsed > 5` s, checked before the flag read takes effect on the
result): `enable()` returns true iff some poll among the first 11
(elapsed ≤ 5 s) reads all six flags true, and false otherwise — timeout
is a soft `False`, not an exception; `disable()` returns *false* iff some
poll among the first 11 reads no flag true, and *true* on deadline expiry
— the inverse of the claimed convention, since its result is the final
enabled-state flag. -/
theorem handshake_loop_results (arm : PiperArm) (flags : ℕ → Fin 6 → Bool) :
    (arm.enable flags).1 = decide (∃ j : Fin 11, allSix (flags j.val) = true) ∧
    (arm.disable flags).1 = !decide (∃ j : Fin 11, anySix (flags j.val) = false) := by
  constructor
  · rw [show (arm.enable flags).1 = enableFrom flags 12 0 from rfl,
        enableFrom_spec flags 12 0 (by omega)]
    exact decide_eq_decide.mpr ⟨fun ⟨j, _, hj⟩ => ⟨j, hj⟩, fun ⟨j, hj⟩ => ⟨j, Nat.zero_le _, hj⟩⟩
  · rw [show (arm.disable flags).1 = disableFrom flags 12 0 from rfl,
        disableFrom_spec flags 12 0 (by omega)]
    exact congrArg (fun b => !b)
      (decide_eq_decide.mpr ⟨fun ⟨j, _, hj⟩ => ⟨j, hj⟩, fun ⟨j, hj⟩ => ⟨j, Nat.zero_le _, hj⟩⟩)

/-- C10.  `PiperArm.enable` executes `self._is_enabled = True`
unconditionally after its polling loop — also on the timed-out path that
returns `False` — so on a connected arm a subsequent `move_j` with six
angles never fails the not-enabled/not-ready check, whatever the flag
readings were. -/
theorem enable_sets_enabled_unconditionally (arm : PiperArm)
    (flags : ℕ → Fin 6 → Bool) :
    (arm.enable flags).2.isEnabled = true ∧
    (arm.isConnected = true → ∀ a b c d e f : ℚ,
      ∃ cmds, ((arm.enable flags).2).move_j [a, b, c, d, e, f] = .ok cmds) := by
  constructor
  · rfl
  · intro hc a b c d e f
    refine ⟨[.motionCtrl2,
      .jointCtrl (pyRound (a * 1000)) (pyRound (b * 1000)) (pyRound (c * 1000))
        (pyRound (d * 1000)) (pyRound (e * 1000)) (pyRound (f * 1000)),
      .motionCtrl2], ?_⟩
    simp [PiperArm.move_j, PiperArm.enable, hc]

/-- Witness for C10: on a connected, not-yet-enabled arm whose flags read
false on every poll, `enable()` returns `False` (deadline expiry), yet
the following `move_j([0]*6)` succeeds. -/
theorem enable_sets_enabled_unconditionally_witness :
    (((PiperArm.mk true false).enable (fun _ _ => false)).1 = false) ∧
    ∃ cmds, (((PiperArm.mk true false).enable (fun _ _ => false)).2).move_j
      [0, 0, 0, 0, 0, 0] = .ok cmds := by
  constructor
  · rw [show ((PiperArm.mk true false).enable (fun _ _ => false)).1 =
        enableFrom (fun _ _ => false) 12 0 from rfl,
      enableFrom_spec (fun _ _ => false) 12 0 (by omega)]
    simp [allSix]
  · exact (enable_sets_enabled_unconditionally (PiperArm.mk true false)
      (fun _ _ => false)).2 rfl 0 0 0 0 0 0

/-- The three shapes of the `oneof request` on a `SendJoint`/`SendPose`
command stream: `setup_request{dexhand_id}`, `packet_request{poses}`,
`cancel_request`. -/
inductive StreamMsg where
  | setup (id : String)
  | packet (poses : List ℚ)
  | cancel
  deriving Repr, DecidableEq

/-- A gRPC status code set on the `ServicerContext`. -/
inductive GrpcCode where
  | notFound
  deriving Repr, DecidableEq

/-- Observable per-session state of the `SendJoint`/`SendPose` loop:

* `bound` — the `dex_hand` local (the id it was resolved from; `None`
  until a successful setup);
* `acks` — how many `yield Empty()` acknowledgements were emitted;
* `applied` — the packets dispatched to a bound controller, in order
  (`dex_hand.move_j(...)`/`move_p(...)` call boundary: the controller's
  own behaviour is modelled separately);
* `statusCode` — the last `context.set_code(...)` value. -/
structure SessionState where
  bound : Option String
  acks : ℕ
  applied : List (String × List ℚ)
  statusCode : Option GrpcCode
  deriving Repr, DecidableEq

/-- The state at session start. -/
def initSession : SessionState := ⟨none, 0, [], none⟩

/-- The `for request in request_iterator` loop shared by
`DexHandControlService.SendJoint` and `SendPose` (identical control flow;
they differ only in which controller method a packet is applied with):

* a `setup_request` whose id is not in `self.dex_hands` executes
  `context.set_code(NOT_FOUND)` / `set_details(...)` — and nothing else:
  no ack, no `return`, the loop continues with the next message;
* a known-id `setup_request` binds `dex_hand` and acks;
* a `packet_request` is applied and acked only `if dex_hand is not None`;
  before any successful setup it is silently skipped;
* a `cancel_request` breaks out of the loop. -/
def runSession (known : String → Bool) : List StreamMsg → SessionState → SessionState
  | [], st => st
  | .setup id :: rest, st =>
    if known id then
      runSession known rest { st with bound := some id, acks := st.acks + 1 }
    else
      runSession known rest { st with statusCode := some .notFound }
  | .packet p :: rest, st =>
    match st.bound with
    | some cid =>
      runSession known rest { st with applied := st.applied ++ [(cid, p)], acks := st.acks + 1 }
    | none => runSession known rest st
  | .cancel :: _, st => st

/-- C5 counterexample: with registry `{"good"}`, the stream
`[Setup "bad", Setup "good", Packet [1]]` — whose first `Setup` names an
unknown id — does *not* terminate: it goes on to emit two
acknowledgements and apply the packet; and the lone pre-setup
`Packet [1]` leaves the session state untouched — zero acknowledgements,
no application, and *no* error status — rather than terminating with an
error. -/
theorem sendStream_violation_counterexample :
    (runSession (fun s => s == "good") [.setup "bad", .setup "good", .packet [1]]
        initSession).acks = 2 ∧
    (runSession (fun s => s == "good") [.setup "bad", .setup "good", .packet [1]]
        initSession).applied = [("good", [1])] ∧
    runSession (fun s => s == "good") [.packet [1]] initSession = initSession := by
  refine ⟨rfl, rfl, rfl⟩

/-- C5 amended.  An unknown-id `Setup` only records the `NotFound` status
code and emits no acknowledgement — the session then continues with the
remaining messages as if from the updated state; a `Packet` arriving
before any successful `Setup` is skipped entirely: the session state is
unchanged (no acknowledgement, no application, no error), and processing
continues. -/
theorem sendStream_preSetup_behavior (known : String → Bool)
    (st : SessionState) (rest : List StreamMsg) :
    (∀ id, known id = false →
      runSession known (.setup id :: rest) st =
        runSession known rest { st with statusCode := some .notFound }) ∧
    (∀ p, st.bound = none →
      runSession known (.packet p :: rest) st = runSession known rest st) := by
  constructor
  · intro id hid
    simp [runSession, hid]
  · intro p hb
    simp [runSession, hb]

/-- Witness for C5: the unknown-id setup records `NotFound` and nothing
else; the pre-setup packet leaves the initial state unchanged. -/
theorem sendStream_preSetup_behavior_witness :
    runSession (fun s => s == "good") [.setup "bad"] initSession =
      { initSession with statusCode := some .notFound } ∧
    runSession (fun s => s == "good") [.packet [1]] initSession = initSession := by
  constructor
  · have h := (sendStream_preSetup_behavior (fun s => s == "good") initSession []).1
      "bad" (by rfl)
    exact h
  · have h := (sendStream_preSetup_behavior (fun s => s == "good") initSession []).2
      [1] rfl
    simp [runSession] at h
    exact h

/-- Discrete-event model of the `ReceiveStatus` push loop
(`while not cancel_task.done(): ...get_status...; yield response; await
asyncio.sleep(1)`), parameterized by `c`, the real time (in seconds, tick
period 1 s) at which the client's `Cancel` completes the background
`check_cancel` task:

* the loop condition is checked at integer tick times `t = 0, 1, 2, …`;
  `cancel_task.done()` holds at a check iff `c ≤ t` (the plain
  `asyncio.sleep(1)` is *not* interrupted by the cancel task — the
  cancellation is observed only at the next tick-boundary check);
* if not yet cancelled, the status snapshot is taken and yielded at
  tick `t` (recorded in the first component), then the loop sleeps to
  `t + 1`;
* the second component is the tick at which the loop exits.

`fuel` bounds the unrolling; `statusSession` supplies `⌈c⌉₊ + 1`, which
is enough to reach the exit for every `c ≥ 0`. -/
def statusLoop (c : ℚ) : ℕ → ℕ → List ℕ × ℕ
  | 0, t => ([], t)
  | fuel + 1, t =>
    if c ≤ (t : ℚ) then ([], t)
    else
      let r := statusLoop c fuel (t + 1)
      (t :: r.1, r.2)

/-- A full `ReceiveStatus` session with cancel completing at time `c`:
the yielded ticks and the exit tick. -/
def statusSession (c : ℚ) : List ℕ × ℕ := statusLoop c (⌈c⌉₊ + 1) 0

lemma statusLoop_spec (c : ℚ) :
    ∀ (fuel t : ℕ), c ≤ (t : ℚ) + (fuel : ℚ) → ((t : ℚ) - 1 < c ∨ (t = 0 ∧ 0 ≤ c)) →
      (∀ e ∈ (statusLoop c fuel t).1, (e : ℚ) < c) ∧
      c ≤ ((statusLoop c fuel t).2 : ℚ) ∧
      ((statusLoop c fuel t).2 : ℚ) - c < 1
  | 0, t, hf, hinv => by
    have hct : c ≤ (t : ℚ) := by push_cast at hf; linarith
    refine ⟨by simp [statusLoop], by simpa [statusLoop] using hct, ?_⟩
    rcases hinv with h | ⟨rfl, h0⟩
    · simp only [statusLoop]
      linarith
    · simp only [statusLoop]
      push_cast
      linarith
  | fuel + 1, t, hf, hinv => by
    by_cases hct : c ≤ (t : ℚ)
    · refine ⟨by simp [statusLoop, hct], by simp only [statusLoop, if_pos hct]; exact hct, ?_⟩
      rcases hinv with h | ⟨rfl, h0⟩
      · simp only [statusLoop, if_pos hct]
        linarith
      · simp only [statusLoop, if_pos hct]
        push_cast
        linarith
    · have htc : (t : ℚ) < c := lt_of_not_le hct
      have ih := statusLoop_spec c fuel (t + 1)
        (by push_cast at hf ⊢; linarith) (Or.inl (by push_cast; linarith))
      refine ⟨?_, ?_, ?_⟩
      · intro e he
        simp only [statusLoop, if_neg hct, List.mem_cons] at he
        rcases he with rfl | he
        · exact htc
        · exact ih.1 e he
      · simpa only [statusLoop, if_neg hct] using ih.2.1
      · simpa only [statusLoop, if_neg hct] using ih.2.2

/-- C7 counterexample: a `Cancel` completing at `c = 0.1` s — right after
the first status push at tick 0 — is only observed at the tick-1
boundary check: the session exits at `t = 1`, a latency of `0.9` s, the
bulk of the 1 s tick period rather than well under it (the inter-tick
`asyncio.sleep(1)` is not interruptible). -/
theorem receiveStatus_latency_counterexample :
    (statusSession (1/10)).2 = 1 ∧
    ¬(((statusSession (1/10)).2 : ℚ) - 1/10 ≤ 1/2) := by
  have hceil : ⌈(1/10 : ℚ)⌉₊ = 1 := by
    rw [Nat.ceil_eq_iff (by norm_num)]
    norm_num
  have h2 : (statusSession (1/10)).2 = 1 := by
    norm_num [statusSession, hceil, statusLoop]
  refine ⟨h2, ?_⟩
  rw [h2]
  norm_num

/-- C7 amended.  After a `Cancel` completes at time `c`, no further
status message is emitted (every yield happens strictly before `c`), and
the loop exits at the next tick boundary: within one full 1 s tick
period of the cancellation, but — since the inter-tick sleep is a plain
`asyncio.sleep(1)` checked once per tick boundary — not with sub-tick
latency in general. -/
theorem receiveStatus_cancel_behavior (c : ℚ) (hc : 0 ≤ c) :
    (∀ e ∈ (statusSession c).1, (e : ℚ) < c) ∧
    c ≤ ((statusSession c).2 : ℚ) ∧
    ((statusSession c).2 : ℚ) - c < 1 := by
  have hf : c ≤ ((0 : ℕ) : ℚ) + ((⌈c⌉₊ + 1 : ℕ) : ℚ) := by
    have := Nat.le_ceil c
    push_cast
    linarith
  exact statusLoop_spec c (⌈c⌉₊ + 1) 0 hf (Or.inr ⟨rfl, hc⟩)

/-- Witness for C7: for the cancel time `c = 3/2` the pushes happen at
ticks 0 and 1 (both before the cancel) and the loop exits at tick 2 —
half a tick after the cancellation. -/
theorem receiveStatus_cancel_behavior_witness :
    (∀ e ∈ (statusSession (3/2)).1, (e : ℚ) < 3/2) ∧
    (3/2 : ℚ) ≤ ((statusSession (3/2)).2 : ℚ) ∧
    ((statusSession (3/2)).2 : ℚ) - 3/2 < 1 :=
  receiveStatus_cancel_behavior (3/2) (by norm_num)
